import Mathlib

/-!
# MovieVine: catalog controller and card renderer

A shallow embedding of `src/src/App.js` (the `App` component: state, `fetchMovies`,
`handleSearch`, `handleSelect`, the render function and the modal handlers) and of
`src/MovieCard.js` (the `MovieCard` component).

* React state (`movies`, `query`, `selectedMovie`) is a record that is passed explicitly.
* `fetch`, `alert` and the promise continuations are explicit: a handler that reaches
  `await fetch(..)` appends a request to the list of issued requests; the code after the
  awaits is a separate function of the outcome of the request.  The order in which
  outcomes arrive is chosen by the environment (the `resolve` event).
* JSX is a tree of plain records (`View`, `Card`, `Modal`).
-/

namespace MovieVine

/-! ## JavaScript values -/

/-- JSON values as JavaScript sees them after `res.json()`.  `num` is an integral number
(of the size JavaScript prints digit by digit, as TMDB ids are), `dec` a non-integral one,
carried by the text JavaScript prints for it (the code does no arithmetic).  `undefined`
is what a property read gives for a missing member. -/
inductive JSVal where
  | undefined
  | null
  | bool (b : Bool)
  | num (n : Int)
  | dec (text : String)
  | str (s : String)
  | arr (items : List JSVal)
  | obj (fields : List (String × JSVal))

/-- A plain object: its own properties in insertion order. -/
abbrev Obj := List (String × JSVal)

/-- Property read `o.k` on a plain object: `undefined` when `k` is missing. -/
def getProp (o : Obj) (k : String) : JSVal :=
  match o.lookup k with
  | some v => v
  | none => .undefined

/-- Property definition as done by an object literal member `k: v` that follows a spread:
an existing property keeps its place and takes the new value, a new one goes last. -/
def setProp : Obj → String → JSVal → Obj
  | [], k, v => [(k, v)]
  | (k', v') :: rest, k, v =>
    if k' = k then (k, v) :: rest else (k', v') :: setProp rest k v

/-- The JavaScript `ToBoolean` conversion (what `x ? a : b`, `if (x)` and `x && y` test). -/
def truthy : JSVal → Bool
  | .undefined => false
  | .null => false
  | .bool b => b
  | .num n => n != 0
  | .dec _ => true
  | .str s => s != ""
  | .arr _ => true
  | .obj _ => true

mutual
/-- The JavaScript `ToString` conversion (string concatenation with `+` and template
literals). -/
def toStr : JSVal → String
  | .undefined => "undefined"
  | .null => "null"
  | .bool true => "true"
  | .bool false => "false"
  | .num n => toString n
  | .dec text => text
  | .str s => s
  | .arr items => joinItems items
  | .obj _ => "[object Object]"
/-- The text of `Array.prototype.join(",")`: `null` and `undefined` items print empty. -/
def joinItems : List JSVal → String
  | [] => ""
  | [.undefined] => ""
  | [.null] => ""
  | [x] => toStr x
  | .undefined :: rest => "," ++ joinItems rest
  | .null :: rest => "," ++ joinItems rest
  | x :: rest => toStr x ++ "," ++ joinItems rest
end

/-- The strict comparison `v === "literal"`. -/
def strictEqStr : JSVal → String → Bool
  | .str s, lit => s == lit
  | _, _ => false

/-! ## Strings -/

/-- The characters `String.prototype.trim` removes: ECMAScript `WhiteSpace` and
`LineTerminator` code points. -/
def isWhiteSpace (c : Char) : Bool :=
  let n := c.toNat
  n == 0x09 || n == 0x0A || n == 0x0B || n == 0x0C || n == 0x0D || n == 0x20 ||
  n == 0xA0 || n == 0x1680 || (0x2000 ≤ n && n ≤ 0x200A) || n == 0x2028 ||
  n == 0x2029 || n == 0x202F || n == 0x205F || n == 0x3000 || n == 0xFEFF

/-- Removal of leading and trailing white space from a character sequence. -/
def trimChars (cs : List Char) : List Char :=
  ((cs.dropWhile isWhiteSpace).reverse.dropWhile isWhiteSpace).reverse

/-- The method `String.prototype.trim`. -/
def jsTrim (s : String) : String := ⟨trimChars s.data⟩

/-! ## Constants of `App.js` and `MovieCard.js` -/

def API_KEY : String := "a205628441593185d663c8f4ca780366"

def BASE_URL : String := "https://api.themoviedb.org/3"

def YT_BASE : String := "https://www.youtube.com/embed/"

def IMG_PATH : String := "https://image.tmdb.org/t/p/w500"

/-- The fallback image of `MovieCard`. -/
def NO_IMAGE : String := "https://via.placeholder.com/200x300?text=No+Image"

/-- The text passed to `alert` by `handleSelect`. -/
def NO_TRAILER : String := "No trailer available 😢"

/-- The URL built in the `useEffect` of `App`. -/
def popularUrl : String := BASE_URL ++ "/movie/popular?api_key=" ++ API_KEY

/-- The URL built in `handleSearch`; the query text is inserted as typed. -/
def searchUrl (query : String) : String :=
  BASE_URL ++ "/search/movie?api_key=" ++ API_KEY ++ "&query=" ++ query

/-- The URL built in `handleSelect`. -/
def videosUrl (movie : Obj) : String :=
  BASE_URL ++ "/movie/" ++ toStr (getProp movie "id") ++ "/videos?api_key=" ++ API_KEY

/-! ## Controller state, requests and outcomes -/

/-- The three `useState` cells of `App`.  `movies` is `none` when the cell holds
`undefined`; `selectedMovie` is `none` when the cell holds `null`. -/
structure AppState where
  movies : Option (List Obj)
  query : String
  selectedMovie : Option Obj

/-- A call of `fetch` made by the controller, with what its continuation needs. -/
inductive Request where
  | list (url : String)
  | videos (url : String) (movie : Obj)

/-- How `await fetch(url)` followed by `await res.json()` ends.  A parsed TMDB body is a
JSON object; `results` is its member `data.results`: `none` when the body has no such
member (an error body `{status_code, status_message}`), else the array of objects. -/
inductive Outcome where
  | networkError
  | parseError
  | body (results : Option (List Obj))

/-- Why an `async` handler rejects or a render throws: the network call, the JSON parse,
or a `TypeError` for reading the named property of `undefined`. -/
inductive JSError where
  | network
  | parse
  | typeError (reading : String)

/-- One response that has arrived: the request it answers and its outcome. -/
structure Arrival where
  id : Nat
  req : Request
  outcome : Outcome

/-- The controller with its environment: React state, every request issued so far in
issue order (a request is named by its position), the responses that arrived in arrival
order, and the texts shown by `alert`. -/
structure Sys where
  app : AppState
  issued : List Request
  arrivals : List Arrival
  alerts : List String

/-- The state before the first render: `useState([])`, `useState("")`,
`useState(null)`. -/
def initial : Sys :=
  { app := { movies := some [], query := "", selectedMovie := none },
    issued := [], arrivals := [], alerts := [] }

/-! ## Handlers -/

/-- The call `fetch(..)` at the head of an `async` handler. -/
def issue (s : Sys) (r : Request) : Sys := { s with issued := s.issued ++ [r] }

/-- `fetchMovies(url)` up to its first `await`. -/
def fetchMovies (s : Sys) (url : String) : Sys := issue s (.list url)

/-- `fetchMovies` after its awaits: `setMovies(data.results)`, or a rejection that leaves
the state alone. -/
def fetchMoviesThen (o : Outcome) (s : Sys) : Except JSError Sys :=
  match o with
  | .networkError => .error .network
  | .parseError => .error .parse
  | .body results => .ok { s with app := { s.app with movies := results } }

/-- The `useEffect` callback, run once on mount. -/
def mount (s : Sys) : Sys := fetchMovies s popularUrl

/-- The `onChange` handler of the search input: `setQuery(e.target.value)`. -/
def setQuery (s : Sys) (text : String) : Sys := { s with app := { s.app with query := text } }

/-- `handleSearch`: the form's `onSubmit` handler. -/
def handleSearch (s : Sys) : Sys :=
  if truthy (.str (jsTrim s.app.query)) then fetchMovies s (searchUrl s.app.query) else s

/-- The predicate passed to `find` in `handleSelect`. -/
def isYouTubeTrailer (vid : Obj) : Bool :=
  strictEqStr (getProp vid "type") "Trailer" && strictEqStr (getProp vid "site") "YouTube"

/-- `handleSelect(movie)` up to its first `await`. -/
def handleSelect (s : Sys) (movie : Obj) : Sys := issue s (.videos (videosUrl movie) movie)

/-- `handleSelect` after its awaits.  A found entry is an object, hence truthy. -/
def handleSelectThen (movie : Obj) (o : Outcome) (s : Sys) : Except JSError Sys :=
  match o with
  | .networkError => .error .network
  | .parseError => .error .parse
  | .body none => .error (.typeError "find")
  | .body (some vids) =>
    match vids.find? isYouTubeTrailer with
    | some trailer =>
      .ok { s with app := { s.app with
              selectedMovie := some (setProp movie "trailerKey" (getProp trailer "key")) } }
    | none => .ok { s with alerts := s.alerts ++ [NO_TRAILER] }

/-- The `onClick` handler of the modal overlay and of the close button:
`setSelectedMovie(null)`. -/
def dismiss (s : Sys) : Sys := { s with app := { s.app with selectedMovie := none } }

/-! ## Rendering -/

/-- What `MovieCard` returns: the image source and alternative text, the heading, the
rating, and the movie handed to `onSelect` on a click. -/
structure Card where
  src : String
  alt : JSVal
  title : JSVal
  rating : JSVal
  onClick : Obj

/-- The component `MovieCard`. -/
def MovieCard (movie : Obj) : Card :=
  { src := if truthy (getProp movie "poster_path")
           then IMG_PATH ++ toStr (getProp movie "poster_path")
           else NO_IMAGE,
    alt := getProp movie "title",
    title := getProp movie "title",
    rating := getProp movie "vote_average",
    onClick := movie }

/-- The `<main>` element: the keyed cards, or the paragraph "No movies found". -/
inductive MainView where
  | cards (items : List (JSVal × Card))
  | noMovies

/-- The trailer modal. -/
structure Modal where
  backgroundImage : String
  iframeSrc : String
  iframeTitle : JSVal
  title : JSVal
  rating : JSVal
  overview : JSVal
  releaseDate : JSVal

/-- What `App` returns. -/
structure View where
  inputValue : String
  main : MainView
  modal : Option Modal

/-- The modal section of `App`: `selectedMovie && (..)`. -/
def modalView (app : AppState) : Option Modal :=
  match app.selectedMovie with
  | none => none
  | some sel =>
    some { backgroundImage :=
             "url(https://image.tmdb.org/t/p/original" ++ toStr (getProp sel "backdrop_path")
               ++ ")",
           iframeSrc :=
             "https://www.youtube.com/embed/" ++ toStr (getProp sel "trailerKey")
               ++ "?autoplay=1",
           iframeTitle := getProp sel "title",
           title := getProp sel "title",
           rating := getProp sel "vote_average",
           overview := getProp sel "overview",
           releaseDate := getProp sel "release_date" }

/-- The render function of `App`.  Reading `movies.length` throws when the cell holds
`undefined`. -/
def App (app : AppState) : Except JSError View :=
  match app.movies with
  | none => .error (.typeError "length")
  | some movies =>
    .ok { inputValue := app.query,
          main := if movies.length > 0
                  then .cards (movies.map fun movie => (getProp movie "id", MovieCard movie))
                  else .noMovies,
          modal := modalView app }

/-- The cards shown by a `<main>` element. -/
def MainView.shown : MainView → List Card
  | .cards items => items.map Prod.snd
  | .noMovies => []

/-! ## Events -/

/-- What can happen to the page. -/
inductive Event where
  | mount
  | change (text : String)
  | submit
  | click (movie : Obj)
  | dismiss
  | resolve (id : Nat) (o : Outcome)

/-- The code after the awaits of the handler that issued `req`, run on outcome `o`.  A
rejection of the handler is not caught by anyone: the state stays as it was. -/
def continuation (req : Request) (o : Outcome) (s : Sys) : Sys :=
  match req with
  | .list _ =>
    match fetchMoviesThen o s with
    | .ok t => t
    | .error _ => s
  | .videos _ movie =>
    match handleSelectThen movie o s with
    | .ok t => t
    | .error _ => s

/-- The arrival of outcome `o` for request `id` is written to the log. -/
def recordArrival (s : Sys) (id : Nat) (req : Request) (o : Outcome) : Sys :=
  { s with arrivals := s.arrivals ++ [{ id := id, req := req, outcome := o }] }

/-- A response arrives for request `id`: it is recorded and the continuation of the
handler that issued the request runs.  A request answers once. -/
def resolve (s : Sys) (id : Nat) (o : Outcome) : Sys :=
  match s.issued[id]? with
  | none => s
  | some req =>
    if s.arrivals.any (fun a => a.id == id) then s
    else continuation req o (recordArrival s id req o)

/-- One event. -/
def step (s : Sys) : Event → Sys
  | .mount => mount s
  | .change text => setQuery s text
  | .submit => handleSearch s
  | .click movie => handleSelect s movie
  | .dismiss => dismiss s
  | .resolve id o => resolve s id o

/-- The state after a sequence of events, from the first render.  Every sequence is
allowed, also ones the page cannot produce (a click on a card that is not shown, an event
after a failed render): the reachable states are among these. -/
def run (evs : List Event) : Sys := evs.foldl step initial

/-! ## Sample data -/

/-- A movie as the list endpoints return it. -/
def sampleMovie : Obj :=
  [("id", .num 268), ("title", .str "Batman"), ("poster_path", .str "/cij4.jpg"),
   ("vote_average", .dec "7.2"), ("overview", .str "The Dark Knight of Gotham City."),
   ("release_date", .str "1989-06-21"), ("backdrop_path", .null),
   ("genre_ids", .arr [.num 14, .num 28])]

/-- A video entry of type Teaser. -/
def sampleTeaser : Obj :=
  [("type", .str "Teaser"), ("site", .str "YouTube"), ("key", .str "tea123")]

/-- A trailer hosted elsewhere. -/
def sampleVimeo : Obj :=
  [("type", .str "Trailer"), ("site", .str "Vimeo"), ("key", .str "vim456")]

/-- A trailer hosted on YouTube. -/
def sampleTrailer : Obj :=
  [("type", .str "Trailer"), ("site", .str "YouTube"), ("key", .str "dgC9Q0uhX70")]

/-- A second trailer hosted on YouTube. -/
def sampleTrailer2 : Obj :=
  [("type", .str "Trailer"), ("site", .str "YouTube"), ("key", .str "later999")]

/-- A movie without a poster. -/
def sampleNoPoster : Obj :=
  [("id", .num 1), ("title", .str "A"), ("poster_path", .null), ("vote_average", .num 6)]

/-- A movie record that has no `poster_path` member at all. -/
def sampleBare : Obj := [("id", .num 2), ("title", .str "B")]

/-- A movie whose `poster_path` is the empty string. -/
def sampleEmptyPoster : Obj := [("id", .num 3), ("title", .str "C"), ("poster_path", .str "")]

/-- A three-element result list. -/
def sampleResults : List Obj := [sampleMovie, sampleNoPoster, sampleBare]

/-- The page after startup, a loaded one-movie list and a click on its card. -/
def sampleClicked : Sys :=
  run [.mount, .resolve 0 (.body (some [sampleMovie])), .click sampleMovie]

/-- Startup, a loaded two-movie list, a click on the first card and the arrival of its
trailer: the modal is open on the first movie. -/
def sampleSelectedTrace : List Event :=
  [.mount, .resolve 0 (.body (some [sampleMovie, sampleNoPoster])), .click sampleMovie,
   .resolve 1 (.body (some [sampleTeaser, sampleTrailer]))]

/-- A state in which the search box holds only spaces and a tab. -/
def sampleBlank : Sys := run [.mount, .resolve 0 (.body (some [sampleMovie])), .change "  \t "]

/-- A state in which the search box holds a padded word. -/
def sampleTyped : Sys :=
  run [.mount, .resolve 0 (.body (some [sampleMovie])), .change " batman "]

/-- The page after startup, a loaded one-movie list, and a submitted search for "batman"
that is still in flight. -/
def sampleSearching : Sys :=
  run [.mount, .resolve 0 (.body (some [sampleNoPoster])), .change "batman", .submit]

/-- Startup, then a search for "batman" whose response overtakes the response of the
popular-list fetch. -/
def raceTrace : List Event :=
  [.mount, .change "batman", .submit,
   .resolve 1 (.body (some sampleResults)),
   .resolve 0 (.body (some [sampleEmptyPoster]))]

/-! ## Notions used by the statements -/

/-- A request that was issued and has not been answered. -/
def InFlight (s : Sys) (id : Nat) (req : Request) : Prop :=
  s.issued[id]? = some req ∧ ∀ a ∈ s.arrivals, a.id ≠ id

/-- The outcome that arrived for request `id`, if one did. -/
def outcomeOf (s : Sys) (id : Nat) : Option Outcome :=
  (s.arrivals.find? fun a => a.id == id).map Arrival.outcome

/-- Whether a request is a list fetch. -/
def Request.isList : Request → Bool
  | .list _ => true
  | .videos _ _ => false

/-- The list fetch that was issued last, if any was. -/
def lastIssuedList (s : Sys) : Option Nat :=
  (List.range s.issued.length).reverse.find? fun id =>
    match s.issued[id]? with
    | some req => req.isList
    | none => false

/-- Every list fetch issued so far has been answered with a body that carries a results
list. -/
def allListFetchesSucceeded (s : Sys) : Bool :=
  (List.range s.issued.length).all fun id =>
    match s.issued[id]?, outcomeOf s id with
    | some (.list _), some (.body (some _)) => true
    | some (.list _), _ => false
    | _, _ => true

/-- The property as claimed: once all issued list fetches have resolved successfully,
`movies` is the result of the one issued last. -/
def MostRecentlyIssuedWins (s : Sys) : Prop :=
  allListFetchesSucceeded s = true →
    ∀ id R, lastIssuedList s = some id → outcomeOf s id = some (.body (some R)) →
      s.app.movies = some R

/-- Whether an arrival is a parsed body answering a list fetch. -/
def Arrival.isListBody (a : Arrival) : Bool :=
  match a.req, a.outcome with
  | .list _, .body _ => true
  | _, _ => false

/-- What the code has stored in `movies` after an arrival log: the `results` member,
present or not, of the parsed body that arrived last for a list fetch, and the initial
empty list when no such body has arrived. -/
def lastListBody (log : List Arrival) : Option (List Obj) :=
  match log.reverse.find? Arrival.isListBody with
  | some a =>
    match a.outcome with
    | .body results => results
    | _ => some []
  | none => some []

/-- The invariant of the controller: `movies` is the `results` member of the list body
that arrived last. -/
def MoviesFollowArrivals (s : Sys) : Prop :=
  s.app.movies = lastListBody s.arrivals

/-- The results list of a successful list response: the request is a list fetch and the
parsed body carries a results list. -/
def Arrival.listResults (a : Arrival) : Option (List Obj) :=
  match a.req, a.outcome with
  | .list _, .body (some R) => some R
  | _, _ => none

/-- The results of the successful list response that arrived last, and the initial empty
list when no successful list response has arrived. -/
def lastSuccessResults (log : List Arrival) : List Obj :=
  match log.reverse.findSome? Arrival.listResults with
  | some R => R
  | none => []

/-- No list fetch has been answered by a parsed body without a results list. -/
def NoErrorBody (s : Sys) : Prop :=
  ∀ a ∈ s.arrivals, a.req.isList = true → a.outcome ≠ .body none

/-- The arrival log agrees with the requests issued: every arrival answers the request
issued under its number, and no request is answered twice. -/
def LogConsistent (s : Sys) : Prop :=
  (∀ a ∈ s.arrivals, s.issued[a.id]? = some a.req) ∧ (s.arrivals.map Arrival.id).Nodup

/-! ## Lemmas on objects, lists and strings -/

theorem getProp_setProp_same (o : Obj) (k : String) (v : JSVal) :
    getProp (setProp o k v) k = v := by
  induction o with
  | nil => simp [setProp, getProp, List.lookup]
  | cons p rest ih =>
    obtain ⟨k', v'⟩ := p
    by_cases h : k' = k
    · simp [setProp, h, getProp, List.lookup]
    · have h' : (k == k') = false := by
        simpa using fun e : k = k' => h e.symm
      simp only [setProp, h, if_false]
      simp only [getProp, List.lookup, h'] at ih ⊢
      exact ih

theorem getProp_setProp_other (o : Obj) (k j : String) (v : JSVal) (hne : j ≠ k) :
    getProp (setProp o k v) j = getProp o j := by
  induction o with
  | nil =>
    have h' : (j == k) = false := by simpa using hne
    simp [setProp, getProp, List.lookup, h']
  | cons p rest ih =>
    obtain ⟨k', v'⟩ := p
    by_cases h : k' = k
    · subst h
      have h' : (j == k') = false := by simpa using hne
      simp [setProp, getProp, List.lookup, h']
    · simp only [setProp, h, if_false]
      by_cases hj : j = k'
      · subst hj
        simp [getProp, List.lookup]
      · have h' : (j == k') = false := by simpa using hj
        simp only [getProp, List.lookup, h'] at ih ⊢
        exact ih

theorem strictEqStr_iff (v : JSVal) (lit : String) :
    strictEqStr v lit = true ↔ v = .str lit := by
  cases v <;> simp [strictEqStr]

theorem isYouTubeTrailer_iff (vid : Obj) :
    isYouTubeTrailer vid = true ↔
      getProp vid "type" = .str "Trailer" ∧ getProp vid "site" = .str "YouTube" := by
  simp [isYouTubeTrailer, strictEqStr_iff]

theorem find_first_match {α : Type} (p : α → Bool) (pre post : List α) (x : α)
    (hpre : ∀ y ∈ pre, p y = false) (hx : p x = true) :
    (pre ++ x :: post).find? p = some x := by
  induction pre with
  | nil => simp [List.find?, hx]
  | cons y rest ih =>
    have hy : p y = false := hpre y (by simp)
    have hrest : ∀ z ∈ rest, p z = false := fun z hz => hpre z (by simp [hz])
    simp [List.find?, hy, ih hrest]

theorem find_no_match {α : Type} (p : α → Bool) (xs : List α)
    (h : ∀ y ∈ xs, p y = false) : xs.find? p = none := by
  induction xs with
  | nil => rfl
  | cons y rest ih =>
    have hy : p y = false := h y (by simp)
    have hrest : ∀ z ∈ rest, p z = false := fun z hz => h z (by simp [hz])
    simp [List.find?, hy, ih hrest]

theorem trimChars_eq_nil_iff (cs : List Char) :
    trimChars cs = [] ↔ ∀ c ∈ cs, isWhiteSpace c = true := by
  unfold trimChars
  rw [List.reverse_eq_nil_iff, List.dropWhile_eq_nil_iff]
  constructor
  · intro h
    have hnil : cs.dropWhile isWhiteSpace = [] := by
      by_contra hne
      have hhead := List.head_dropWhile_not isWhiteSpace cs hne
      have hmem : (cs.dropWhile isWhiteSpace).head hne ∈ (cs.dropWhile isWhiteSpace).reverse :=
        List.mem_reverse.2 (List.head_mem hne)
      have := h _ hmem
      simp [hhead] at this
    exact List.dropWhile_eq_nil_iff.1 hnil
  · intro h c hc
    have hnil : cs.dropWhile isWhiteSpace = [] := List.dropWhile_eq_nil_iff.2 h
    simp [hnil] at hc

theorem truthy_jsTrim (q : String) :
    truthy (.str (jsTrim q)) = true ↔ ¬ ∀ c ∈ q.data, isWhiteSpace c = true := by
  rw [← trimChars_eq_nil_iff]
  simp only [truthy, jsTrim, bne_iff_ne, ne_eq]
  constructor
  · intro h hnil
    exact h (by rw [hnil])
  · intro h heq
    exact h (by simpa using congrArg String.data heq)

theorem resolve_inFlight (s : Sys) (id : Nat) (req : Request) (o : Outcome)
    (h : InFlight s id req) :
    resolve s id o = continuation req o (recordArrival s id req o) := by
  obtain ⟨hget, hfresh⟩ := h
  have hany : (s.arrivals.any fun a => a.id == id) = false := by
    rw [List.any_eq_false]
    intro a ha
    simpa using hfresh a ha
  simp [resolve, hget, hany]

theorem lastListBody_snoc (log : List Arrival) (a : Arrival) :
    lastListBody (log ++ [a]) =
      if a.isListBody then
        (match a.outcome with
         | .body results => results
         | _ => some [])
      else lastListBody log := by
  unfold lastListBody
  rw [List.reverse_append]
  by_cases h : a.isListBody = true
  · simp [List.find?, h]
  · have h' : a.isListBody = false := by simpa using h
    simp [List.find?, h']

theorem continuation_follows (req : Request) (o : Outcome) (s : Sys) (id : Nat)
    (h : MoviesFollowArrivals s) :
    MoviesFollowArrivals (continuation req o (recordArrival s id req o)) := by
  unfold MoviesFollowArrivals at h ⊢
  cases req with
  | list url =>
    cases o with
    | networkError =>
      simp [continuation, recordArrival, fetchMoviesThen, lastListBody_snoc,
        Arrival.isListBody, h]
    | parseError =>
      simp [continuation, recordArrival, fetchMoviesThen, lastListBody_snoc,
        Arrival.isListBody, h]
    | body results =>
      simp [continuation, recordArrival, fetchMoviesThen, lastListBody_snoc,
        Arrival.isListBody]
  | videos url movie =>
    have hlog : lastListBody (s.arrivals ++ [Arrival.mk id (.videos url movie) o])
        = lastListBody s.arrivals := by
      simp [lastListBody_snoc, Arrival.isListBody]
    cases o with
    | networkError => simpa [continuation, recordArrival, handleSelectThen, hlog] using h
    | parseError => simpa [continuation, recordArrival, handleSelectThen, hlog] using h
    | body results =>
      cases results with
      | none => simpa [continuation, recordArrival, handleSelectThen, hlog] using h
      | some vids =>
        cases hf : vids.find? isYouTubeTrailer with
        | none => simpa [continuation, recordArrival, handleSelectThen, hf, hlog] using h
        | some t => simpa [continuation, recordArrival, handleSelectThen, hf, hlog] using h

theorem step_follows (s : Sys) (e : Event) (h : MoviesFollowArrivals s) :
    MoviesFollowArrivals (step s e) := by
  cases e with
  | mount => exact h
  | change text => exact h
  | submit =>
    unfold MoviesFollowArrivals at h ⊢
    simp only [step, handleSearch]
    split
    · exact h
    · exact h
  | click movie => exact h
  | dismiss => exact h
  | resolve id o =>
    simp only [step, resolve]
    split
    · exact h
    · split
      · exact h
      · exact continuation_follows _ _ _ _ h

theorem foldl_step_follows (evs : List Event) (s : Sys) (h : MoviesFollowArrivals s) :
    MoviesFollowArrivals (evs.foldl step s) := by
  induction evs generalizing s with
  | nil => exact h
  | cons e rest ih => exact ih (step s e) (step_follows s e h)

theorem lastSuccessResults_snoc (log : List Arrival) (a : Arrival) :
    lastSuccessResults (log ++ [a]) =
      match a.listResults with
      | some R => R
      | none => lastSuccessResults log := by
  unfold lastSuccessResults
  rw [List.reverse_append]
  cases h : a.listResults <;> simp [List.findSome?, h]

theorem lastListBody_of_noErrorBody (log : List Arrival)
    (h : ∀ a ∈ log, a.req.isList = true → a.outcome ≠ .body none) :
    lastListBody log = some (lastSuccessResults log) := by
  induction log using List.reverseRecOn with
  | nil => rfl
  | append_singleton log a ih =>
    have hlog : ∀ b ∈ log, b.req.isList = true → b.outcome ≠ .body none :=
      fun b hb => h b (by simp [hb])
    have ha : a.req.isList = true → a.outcome ≠ .body none := h a (by simp)
    rw [lastListBody_snoc, lastSuccessResults_snoc, ih hlog]
    obtain ⟨id, req, o⟩ := a
    cases req with
    | list url =>
      cases o with
      | networkError => simp [Arrival.isListBody, Arrival.listResults]
      | parseError => simp [Arrival.isListBody, Arrival.listResults]
      | body results =>
        cases results with
        | none => exact absurd rfl (ha rfl)
        | some R => simp [Arrival.isListBody, Arrival.listResults]
    | videos url movie => simp [Arrival.isListBody, Arrival.listResults]

theorem getElem?_append_of_some {α : Type} (l : List α) (x y : α) (i : Nat)
    (h : l[i]? = some x) : (l ++ [y])[i]? = some x := by
  have hi : i < l.length := by
    by_contra hge
    have : l[i]? = none := List.getElem?_eq_none (Nat.le_of_not_lt hge)
    rw [this] at h
    exact Option.noConfusion h
  rw [List.getElem?_append_left hi]
  exact h

theorem issue_consistent (s : Sys) (r : Request) (h : LogConsistent s) :
    LogConsistent (issue s r) :=
  ⟨fun a ha => getElem?_append_of_some _ _ _ _ (h.1 a ha), h.2⟩

theorem continuation_arrivals (req : Request) (o : Outcome) (s : Sys) :
    (continuation req o s).arrivals = s.arrivals ∧
    (continuation req o s).issued = s.issued := by
  cases req with
  | list url => cases o <;> simp [continuation, fetchMoviesThen]
  | videos url movie =>
    cases o with
    | networkError => simp [continuation, handleSelectThen]
    | parseError => simp [continuation, handleSelectThen]
    | body results =>
      cases results with
      | none => simp [continuation, handleSelectThen]
      | some vids =>
        cases hf : vids.find? isYouTubeTrailer <;> simp [continuation, handleSelectThen, hf]

theorem step_consistent (s : Sys) (e : Event) (h : LogConsistent s) :
    LogConsistent (step s e) := by
  cases e with
  | mount => exact issue_consistent s _ h
  | change text => exact h
  | submit =>
    simp only [step, handleSearch]
    split
    · exact issue_consistent s _ h
    · exact h
  | click movie => exact issue_consistent s _ h
  | dismiss => exact h
  | resolve id o =>
    simp only [step, resolve]
    split
    · exact h
    · rename_i req hreq
      split
      · exact h
      · rename_i hany
        have hfresh : ∀ a ∈ s.arrivals, a.id ≠ id := by
          simpa using hany
        obtain ⟨harr, hiss⟩ := continuation_arrivals req o (recordArrival s id req o)
        unfold LogConsistent
        rw [harr, hiss]
        constructor
        · intro a ha
          simp only [recordArrival, List.mem_append, List.mem_singleton] at ha
          rcases ha with ha | ha
          · exact h.1 a ha
          · subst ha
            exact hreq
        · simp only [recordArrival, List.map_append, List.map_cons, List.map_nil]
          rw [List.nodup_append]
          refine ⟨h.2, List.nodup_singleton _, ?_⟩
          intro x hx hx'
          simp only [List.mem_singleton] at hx'
          subst hx'
          obtain ⟨a, ha, hid⟩ := List.mem_map.1 hx
          exact hfresh a ha hid

theorem run_consistent (evs : List Event) : LogConsistent (run evs) := by
  have key : ∀ (l : List Event) (s : Sys), LogConsistent s → LogConsistent (l.foldl step s) := by
    intro l
    induction l with
    | nil => exact fun s h => h
    | cons e rest ih => exact fun s h => ih (step s e) (step_consistent s e h)
  exact key evs initial ⟨by simp [initial], by simp [initial]⟩

theorem run_arrival_ids_issued (evs : List Event) :
    ∀ a ∈ (run evs).arrivals, a.id ≠ (run evs).issued.length := by
  intro a ha heq
  have h := (run_consistent evs).1 a ha
  rw [heq, List.getElem?_eq_none (Nat.le_refl _)] at h
  exact Option.noConfusion h

theorem find_by_id_of_nodup (log : List Arrival) (a : Arrival) (ha : a ∈ log)
    (hnd : (log.map Arrival.id).Nodup) :
    (log.find? fun b => b.id == a.id) = some a := by
  induction log with
  | nil => simp at ha
  | cons b rest ih =>
    simp only [List.map_cons, List.nodup_cons] at hnd
    rcases List.mem_cons.1 ha with hab | hin
    · subst hab
      simp [List.find?]
    · have hne : (b.id == a.id) = false := by
        have : b.id ≠ a.id := fun e => hnd.1 (e ▸ List.mem_map_of_mem Arrival.id hin)
        simpa using this
      simp only [List.find?, hne]
      exact ih hin hnd.2

theorem noErrorBody_of_allSucceeded (s : Sys) (hc : LogConsistent s)
    (hall : allListFetchesSucceeded s = true) : NoErrorBody s := by
  intro a ha hlist hbody
  have hget := hc.1 a ha
  have hlt : a.id < s.issued.length := by
    by_contra hge
    rw [List.getElem?_eq_none (Nat.le_of_not_lt hge)] at hget
    exact Option.noConfusion hget
  have hpred := (List.all_eq_true.1 hall) a.id (List.mem_range.2 hlt)
  have hout : outcomeOf s a.id = some (.body none) := by
    simp [outcomeOf, find_by_id_of_nodup s.arrivals a ha hc.2, hbody]
  rw [hget, hout] at hpred
  cases hreq : a.req with
  | list url =>
    rw [hreq] at hpred
    simp at hpred
  | videos url movie =>
    rw [hreq] at hlist
    simp [Request.isList] at hlist

/-! ## Trailer selection -/

/-- C1: when the video list returned for a clicked movie holds an entry of type "Trailer"
on site "YouTube" after any number of entries that are not, `handleSelect` sets
`selectedMovie` to an object that has the movie's own properties and `trailerKey` equal to
the `key` of exactly that entry; `movies`, `query` and the notices are untouched. -/
theorem handleSelect_picks_first_trailer (s : Sys) (id : Nat) (url : String) (movie : Obj)
    (pre post : List Obj) (vid : Obj)
    (hreq : InFlight s id (.videos url movie))
    (hpre : ∀ v ∈ pre, ¬ (getProp v "type" = .str "Trailer" ∧ getProp v "site" = .str "YouTube"))
    (hvid : getProp vid "type" = .str "Trailer" ∧ getProp vid "site" = .str "YouTube") :
    ∃ sel : Obj,
      (resolve s id (.body (some (pre ++ vid :: post)))).app
          = { s.app with selectedMovie := some sel } ∧
      (resolve s id (.body (some (pre ++ vid :: post)))).alerts = s.alerts ∧
      getProp sel "trailerKey" = getProp vid "key" ∧
      (∀ k, k ≠ "trailerKey" → getProp sel k = getProp movie k) ∧
      sel = setProp movie "trailerKey" (getProp vid "key") := by
  have hp : ∀ v ∈ pre, isYouTubeTrailer v = false := by
    intro v hv
    have := hpre v hv
    rw [← isYouTubeTrailer_iff] at this
    simpa using this
  have hv : isYouTubeTrailer vid = true := (isYouTubeTrailer_iff vid).2 hvid
  refine ⟨setProp movie "trailerKey" (getProp vid "key"), ?_, ?_,
    getProp_setProp_same _ _ _, fun k hk => getProp_setProp_other _ _ _ _ hk, rfl⟩
  · rw [resolve_inFlight s id _ _ hreq]
    simp [continuation, recordArrival, handleSelectThen,
      find_first_match isYouTubeTrailer pre post vid hp hv]
  · rw [resolve_inFlight s id _ _ hreq]
    simp [continuation, recordArrival, handleSelectThen,
      find_first_match isYouTubeTrailer pre post vid hp hv]

theorem handleSelect_picks_first_trailer_witness :
    InFlight sampleClicked 1 (.videos (videosUrl sampleMovie) sampleMovie) ∧
    ∃ sel : Obj,
      (resolve sampleClicked 1
          (.body (some ([sampleTeaser, sampleVimeo] ++ sampleTrailer :: [sampleTrailer2])))).app
          = { sampleClicked.app with selectedMovie := some sel } ∧
      (resolve sampleClicked 1
          (.body (some ([sampleTeaser, sampleVimeo] ++ sampleTrailer :: [sampleTrailer2])))).alerts
          = sampleClicked.alerts ∧
      getProp sel "trailerKey" = getProp sampleTrailer "key" ∧
      (∀ k, k ≠ "trailerKey" → getProp sel k = getProp sampleMovie k) ∧
      sel = setProp sampleMovie "trailerKey" (getProp sampleTrailer "key") :=
  have hreq : InFlight sampleClicked 1 (.videos (videosUrl sampleMovie) sampleMovie) :=
    ⟨rfl, by decide⟩
  ⟨hreq,
   handleSelect_picks_first_trailer sampleClicked 1 (videosUrl sampleMovie) sampleMovie
    [sampleTeaser, sampleVimeo] [sampleTrailer2] sampleTrailer hreq
    (by simp [sampleTeaser, sampleVimeo, getProp, List.lookup])
    (by simp [sampleTrailer, getProp, List.lookup])⟩

/-- C2: a call of `handleSelect` whose video list has no entry of type "Trailer" on site
"YouTube" (the empty list included) leaves `selectedMovie` exactly as it was before the
call, unset or set, and shows the notice "No trailer available" exactly once.  The call
itself, from any reachable state, only issues the request to the videos endpoint: `movies`,
`query`, `selectedMovie` and the notices are untouched.  When the video list then arrives,
`movies`, `query` and `selectedMovie` are those of before the call and the notices are those
of before the call followed by the one notice.  The same holds at arrival in any state, as
late as it may be: nothing changes but the notices, which gain the one notice. -/
theorem handleSelect_no_trailer (evs : List Event) (movie : Obj) (vids : List Obj)
    (hnone : ∀ v ∈ vids,
      ¬ (getProp v "type" = .str "Trailer" ∧ getProp v "site" = .str "YouTube")) :
    step (run evs) (.click movie) =
      { run evs with issued := (run evs).issued ++
          [.videos ("https://api.themoviedb.org/3" ++ "/movie/" ++ toStr (getProp movie "id")
            ++ "/videos?api_key=" ++ "a205628441593185d663c8f4ca780366") movie] } ∧
    (step (step (run evs) (.click movie))
        (.resolve (run evs).issued.length (.body (some vids)))).app = (run evs).app ∧
    (step (step (run evs) (.click movie))
        (.resolve (run evs).issued.length (.body (some vids)))).alerts
      = (run evs).alerts ++ ["No trailer available 😢"] ∧
    (∀ (t : Sys) (id : Nat) (url : String), InFlight t id (.videos url movie) →
      (step t (.resolve id (.body (some vids)))).app = t.app ∧
      (step t (.resolve id (.body (some vids)))).alerts
        = t.alerts ++ ["No trailer available 😢"] ∧
      (step t (.resolve id (.body (some vids)))).issued = t.issued) := by
  have hp : ∀ v ∈ vids, isYouTubeTrailer v = false := by
    intro v hv
    have := hnone v hv
    rw [← isYouTubeTrailer_iff] at this
    simpa using this
  have harrive : ∀ (t : Sys) (id : Nat) (url : String), InFlight t id (.videos url movie) →
      (step t (.resolve id (.body (some vids)))).app = t.app ∧
      (step t (.resolve id (.body (some vids)))).alerts
        = t.alerts ++ ["No trailer available 😢"] ∧
      (step t (.resolve id (.body (some vids)))).issued = t.issued := by
    intro t id url hreq
    simp only [step]
    rw [resolve_inFlight t id _ _ hreq]
    simp [continuation, recordArrival, handleSelectThen, find_no_match isYouTubeTrailer vids hp,
      NO_TRAILER]
  have hflight : InFlight (step (run evs) (.click movie)) (run evs).issued.length
      (.videos (videosUrl movie) movie) := by
    constructor
    · simp [step, handleSelect, issue]
    · exact run_arrival_ids_issued evs
  have h := harrive _ _ _ hflight
  exact ⟨rfl, h.1, h.2.1, harrive⟩

theorem handleSelect_no_trailer_witness :
    (run sampleSelectedTrace).app.selectedMovie
      = some (setProp sampleMovie "trailerKey" (.str "dgC9Q0uhX70")) ∧
    (run sampleSelectedTrace).alerts = [] ∧
    (step (step (run sampleSelectedTrace) (.click sampleNoPoster))
        (.resolve 2 (.body (some [sampleTeaser, sampleVimeo])))).app
      = (run sampleSelectedTrace).app ∧
    (step (step (run sampleSelectedTrace) (.click sampleNoPoster))
        (.resolve 2 (.body (some [sampleTeaser, sampleVimeo])))).alerts
      = [] ++ ["No trailer available 😢"] ∧
    (step (run [.mount]) (.click sampleBare)).issued
      = [.list popularUrl,
         .videos "https://api.themoviedb.org/3/movie/2/videos?api_key=a205628441593185d663c8f4ca780366"
           sampleBare] ∧
    (step (step (run [.mount]) (.click sampleBare)) (.resolve 1 (.body (some [])))).alerts
      = ["No trailer available 😢"] :=
  have hnone : ∀ v ∈ [sampleTeaser, sampleVimeo],
      ¬ (getProp v "type" = .str "Trailer" ∧ getProp v "site" = .str "YouTube") := by
    simp [sampleTeaser, sampleVimeo, getProp, List.lookup]
  have h := handleSelect_no_trailer sampleSelectedTrace sampleNoPoster
    [sampleTeaser, sampleVimeo] hnone
  have h0 := handleSelect_no_trailer [.mount] sampleBare [] (by simp)
  ⟨rfl, rfl, h.2.1, h.2.2.1, congrArg Sys.issued h0.1, h0.2.2.1⟩

/-! ## Search submission -/

/-- C3: submitting the search form issues a fetch exactly when the query holds a character
that is not white space.  For a query that is empty or all white space the whole state,
`movies`, `query` and `selectedMovie` included, is unchanged and no request is issued; for
any other query exactly one request, to the search endpoint with the query as typed, is
added, and `movies`, `query` and `selectedMovie` are unchanged at that moment. -/
theorem handleSearch_fetches_iff_nonblank (s : Sys) :
    ((∀ c ∈ s.app.query.data, isWhiteSpace c = true) → step s .submit = s) ∧
    (¬ (∀ c ∈ s.app.query.data, isWhiteSpace c = true) →
      step s .submit =
        { s with issued := s.issued ++
            [.list ("https://api.themoviedb.org/3/search/movie?api_key="
              ++ "a205628441593185d663c8f4ca780366" ++ "&query=" ++ s.app.query)] }) := by
  constructor
  · intro h
    have ht : truthy (.str (jsTrim s.app.query)) = false := by
      have := (truthy_jsTrim s.app.query).not.2 (not_not.2 h)
      simpa using this
    simp [step, handleSearch, ht]
  · intro h
    have ht : truthy (.str (jsTrim s.app.query)) = true := (truthy_jsTrim s.app.query).2 h
    simp only [step, handleSearch, ht, if_true, fetchMovies, issue, searchUrl, BASE_URL, API_KEY]
    rfl

theorem handleSearch_fetches_iff_nonblank_witness :
    step sampleBlank .submit = sampleBlank ∧
    step sampleTyped .submit =
      { sampleTyped with issued := sampleTyped.issued ++
          [.list ("https://api.themoviedb.org/3/search/movie?api_key="
            ++ "a205628441593185d663c8f4ca780366" ++ "&query=" ++ sampleTyped.app.query)] } :=
  ⟨(handleSearch_fetches_iff_nonblank sampleBlank).1 (by decide),
   (handleSearch_fetches_iff_nonblank sampleTyped).2 (by decide)⟩

/-! ## List fetches -/

/-- C4: when a list fetch (popular or search) resolves with a body whose `results` is the
list `R`, `movies` becomes exactly `R`, whatever the list before was; `query`,
`selectedMovie` and the notices are unchanged. -/
theorem fetchMovies_replaces_movies (s : Sys) (id : Nat) (url : String) (R : List Obj)
    (hreq : InFlight s id (.list url)) :
    (resolve s id (.body (some R))).app = { s.app with movies := some R } ∧
    (resolve s id (.body (some R))).alerts = s.alerts := by
  rw [resolve_inFlight s id _ _ hreq]
  simp [continuation, recordArrival, fetchMoviesThen]

theorem fetchMovies_replaces_movies_witness :
    InFlight sampleSearching 1 (.list (searchUrl "batman")) ∧
    sampleSearching.app.movies = some [sampleNoPoster] ∧
    ((resolve sampleSearching 1 (.body (some sampleResults))).app
        = { sampleSearching.app with movies := some sampleResults } ∧
      (resolve sampleSearching 1 (.body (some sampleResults))).alerts
        = sampleSearching.alerts) ∧
    sampleResults.length = 3 :=
  have hreq : InFlight sampleSearching 1 (.list (searchUrl "batman")) := ⟨rfl, by decide⟩
  ⟨hreq, rfl,
   fetchMovies_replaces_movies sampleSearching 1 (searchUrl "batman") sampleResults hreq, rfl⟩

/-- C5, as stated, fails: after startup a search for "batman" is issued, its three results
arrive first and the popular list arrives second.  Both list fetches have resolved
successfully, the search is the list fetch issued last, and `movies` holds the popular
list. -/
theorem race_overwrites_newer_result : ¬ MostRecentlyIssuedWins (run raceTrace) := by
  intro h
  have hm := h (by decide) 1 sampleResults rfl rfl
  have hactual : (run raceTrace).app.movies = some [sampleEmptyPoster] := rfl
  rw [hactual] at hm
  simp [sampleResults] at hm

/-- C5, as amended: in every state reached from the first render by any sequence of
startup, typing, search submissions, card clicks, dismissals and response arrivals, in any
order, in which no list fetch has been answered by a body without a results list, and so
in particular in every such state in which all issued list fetches have resolved
successfully, `movies` is the full result of the list fetch whose successful response
arrived last, and the initial empty list when no successful list response has arrived; the
order of issue plays no part. -/
theorem movies_follow_last_arrival (evs : List Event) :
    (NoErrorBody (run evs) →
      (run evs).app.movies = some (lastSuccessResults (run evs).arrivals)) ∧
    (allListFetchesSucceeded (run evs) = true →
      (run evs).app.movies = some (lastSuccessResults (run evs).arrivals)) := by
  have hinv : (run evs).app.movies = lastListBody (run evs).arrivals :=
    foldl_step_follows evs initial rfl
  have hfirst : NoErrorBody (run evs) →
      (run evs).app.movies = some (lastSuccessResults (run evs).arrivals) := by
    intro h
    rw [hinv]
    exact lastListBody_of_noErrorBody _ h
  exact ⟨hfirst, fun hall =>
    hfirst (noErrorBody_of_allSucceeded _ (run_consistent evs) hall)⟩

theorem movies_follow_last_arrival_witness :
    allListFetchesSucceeded (run raceTrace) = true ∧
    lastSuccessResults (run raceTrace).arrivals = [sampleEmptyPoster] ∧
    (run raceTrace).app.movies = some (lastSuccessResults (run raceTrace).arrivals) ∧
    (run [.mount, .resolve 0 .networkError]).app.movies
      = some (lastSuccessResults (run [.mount, .resolve 0 .networkError]).arrivals) :=
  ⟨by decide, rfl, (movies_follow_last_arrival raceTrace).2 (by decide),
   (movies_follow_last_arrival [.mount, .resolve 0 .networkError]).1
     (by intro a ha hl; simp [run, step, mount, fetchMovies, issue, initial, resolve,
           continuation, recordArrival, fetchMoviesThen] at ha; subst ha; simp)⟩

/-- C8: when a list fetch fails at the network call or at the JSON parse, `fetchMovies`
rejects without a state update: `movies`, `query` and `selectedMovie` are as before and no
notice is shown. -/
theorem fetchMovies_failure_keeps_state (s : Sys) (id : Nat) (url : String)
    (hreq : InFlight s id (.list url)) :
    (resolve s id .networkError).app = s.app ∧
    (resolve s id .networkError).alerts = s.alerts ∧
    (resolve s id .parseError).app = s.app ∧
    (resolve s id .parseError).alerts = s.alerts ∧
    fetchMoviesThen .networkError s = .error .network ∧
    fetchMoviesThen .parseError s = .error .parse := by
  rw [resolve_inFlight s id _ _ hreq, resolve_inFlight s id _ _ hreq]
  simp [continuation, recordArrival, fetchMoviesThen]

theorem fetchMovies_failure_keeps_state_witness :
    InFlight sampleSearching 1 (.list (searchUrl "batman")) ∧
    ((resolve sampleSearching 1 .networkError).app = sampleSearching.app ∧
      (resolve sampleSearching 1 .networkError).alerts = sampleSearching.alerts ∧
      (resolve sampleSearching 1 .parseError).app = sampleSearching.app ∧
      (resolve sampleSearching 1 .parseError).alerts = sampleSearching.alerts ∧
      fetchMoviesThen .networkError sampleSearching = .error .network ∧
      fetchMoviesThen .parseError sampleSearching = .error .parse) :=
  have hreq : InFlight sampleSearching 1 (.list (searchUrl "batman")) := ⟨rfl, by decide⟩
  ⟨hreq, fetchMovies_failure_keeps_state sampleSearching 1 (searchUrl "batman") hreq⟩

/-- C7: the claim fails on the code.  A search is in flight over a loaded list that
renders, and its response is a parsed body without a `results` member (a TMDB error
body).  `fetchMovies` stores `undefined` in `movies`: the list is gone rather than stale,
`movies` is no longer a sequence, and the render of `App` throws on `movies.length`. -/
theorem error_body_breaks_render :
    sampleSearching.app.movies = some [sampleNoPoster] ∧
    (∃ v, App sampleSearching.app = .ok v ∧ v.main.shown.length = 1) ∧
    (step sampleSearching (.resolve 1 (.body none))).app.movies = none ∧
    App (step sampleSearching (.resolve 1 (.body none))).app = .error (.typeError "length") :=
  ⟨rfl, ⟨_, rfl, rfl⟩, rfl, rfl⟩

/-! ## Rendering and dismissal -/

/-- C6: the poster URL rendered by `MovieCard` is the prefix
"https://image.tmdb.org/t/p/w500" followed by `poster_path` when that is a non-empty
string, and the fixed placeholder URL when `poster_path` is `null`, missing, or the empty
string; the placeholder URL does not contain the TMDB image prefix. -/
theorem MovieCard_poster_src (movie : Obj) :
    (∀ p : String, getProp movie "poster_path" = .str p → p ≠ "" →
      (MovieCard movie).src = "https://image.tmdb.org/t/p/w500" ++ p) ∧
    ((getProp movie "poster_path" = .null ∨ movie.lookup "poster_path" = none ∨
        getProp movie "poster_path" = .str "") →
      (MovieCard movie).src = "https://via.placeholder.com/200x300?text=No+Image" ∧
      ¬ ("https://image.tmdb.org/t/p/w500".data <:+: (MovieCard movie).src.data)) := by
  have hno : ¬ ("https://image.tmdb.org/t/p/w500".data <:+: NO_IMAGE.data) := by
    intro h
    have hb : 'b' ∈ "https://image.tmdb.org/t/p/w500".data := by decide
    have : 'b' ∈ NO_IMAGE.data := h.subset hb
    exact absurd this (by decide)
  constructor
  · intro p hp hne
    have ht : truthy (.str p) = true := by simpa [truthy] using hne
    simp [MovieCard, hp, ht, toStr, IMG_PATH]
  · intro h
    have ht : truthy (getProp movie "poster_path") = false := by
      rcases h with h | h | h
      · simp [h, truthy]
      · simp [getProp, h, truthy]
      · simp [h, truthy]
    have hsrc : (MovieCard movie).src = NO_IMAGE := by simp [MovieCard, ht]
    rw [hsrc]
    exact ⟨rfl, hno⟩

theorem MovieCard_poster_src_witness :
    (MovieCard sampleMovie).src = "https://image.tmdb.org/t/p/w500" ++ "/cij4.jpg" ∧
    ((MovieCard sampleNoPoster).src = "https://via.placeholder.com/200x300?text=No+Image" ∧
      ¬ ("https://image.tmdb.org/t/p/w500".data <:+: (MovieCard sampleNoPoster).src.data)) ∧
    ((MovieCard sampleBare).src = "https://via.placeholder.com/200x300?text=No+Image" ∧
      ¬ ("https://image.tmdb.org/t/p/w500".data <:+: (MovieCard sampleBare).src.data)) ∧
    ((MovieCard sampleEmptyPoster).src = "https://via.placeholder.com/200x300?text=No+Image" ∧
      ¬ ("https://image.tmdb.org/t/p/w500".data <:+: (MovieCard sampleEmptyPoster).src.data)) :=
  ⟨(MovieCard_poster_src sampleMovie).1 "/cij4.jpg" rfl (by decide),
   (MovieCard_poster_src sampleNoPoster).2 (Or.inl rfl),
   (MovieCard_poster_src sampleBare).2 (Or.inr (Or.inl rfl)),
   (MovieCard_poster_src sampleEmptyPoster).2 (Or.inr (Or.inr rfl))⟩

/-- C9: for a state whose `movies` is a list, `App` renders one card per element, in the
order of the list: the cards shown are the `MovieCard` of each element in turn, so their
number is the length of the list; the paragraph "No movies found" is rendered exactly when
the list is empty, and then no card is shown. -/
theorem App_one_card_per_movie (movies : List Obj) (query : String) (sel : Option Obj) :
    ∃ v : View,
      App { movies := some movies, query := query, selectedMovie := sel } = .ok v ∧
      v.main.shown = movies.map MovieCard ∧
      v.main.shown.length = movies.length ∧
      (v.main.shown.map Card.onClick) = movies ∧
      (v.main = .noMovies ↔ movies = []) := by
  cases movies with
  | nil => exact ⟨_, rfl, rfl, rfl, rfl, by simp⟩
  | cons m rest =>
    refine ⟨_, rfl, ?_, ?_, ?_, ?_⟩
    · simp [MainView.shown, Function.comp_def]
    · simp [MainView.shown]
    · simp [MainView.shown, Function.comp_def, MovieCard]
    · simp

/-- C10: dismissing (the overlay click and the close button both run
`setSelectedMovie(null)`) unsets `selectedMovie` whatever it held, leaves `movies` and
`query` alone, removes the modal from the rendered view and from nothing else, and doing it
twice is the same as doing it once. -/
theorem dismiss_unsets_selected (s : Sys) :
    (step s .dismiss).app.selectedMovie = none ∧
    (step s .dismiss).app.movies = s.app.movies ∧
    (step s .dismiss).app.query = s.app.query ∧
    modalView (step s .dismiss).app = none ∧
    App (step s .dismiss).app = (App s.app).map (fun v => { v with modal := none }) ∧
    step (step s .dismiss) .dismiss = step s .dismiss := by
  refine ⟨rfl, rfl, rfl, rfl, ?_, rfl⟩
  simp only [step, dismiss, App]
  cases s.app.movies <;> rfl

end MovieVine
